import Mathlib

/-!
# Verification of the Lachain backend adapter (src/src/emit/lachain.rs)

A shallow embedding of the target-specific compiler backend for the Lachain
blockchain virtual machine. The backend emits LLVM IR; here we embed

* the host-primitive declarations (`declare_externals`) as a table of
  names, parameter types, return types and the noreturn attribute;
* the straight-line operation sequences the backend emits at each lowering
  site, as lists of abstract operations (`Op`);
* the runtime branching semantics of the call/creation marshaller
  (success-flag versus unconditional-revert) as functions from the host
  status code to an outcome;
* the storage accessor paths as functions over a byte-level model of the
  host's keyed storage.

The host primitives themselves (save_storage, load_storage, the string
storage family) are external to the repository; where a claim's truth
depends on them they are modelled from the specification's data model
(a key-value store of 32-byte words / byte sequences).
-/

namespace Lachain

/-! ## Host Interface Registry (declare_externals, lachain.rs lines 136-563) -/

/-- Parameter / return types appearing in the host primitive declarations:
`i8`, `i32`, `i64`, byte pointers, and `void` returns. -/
inductive PrimTy where
  | i8 : PrimTy
  | i32 : PrimTy
  | i64 : PrimTy
  | ptr : PrimTy
  | void : PrimTy
  deriving DecidableEq

/-- One declared host primitive: its name, parameter types, return type and
whether it carries the `noreturn` attribute. -/
structure HostPrimitive where
  name : String
  params : List PrimTy
  ret : PrimTy
  noreturn : Bool
  deriving DecidableEq

/-- The complete fixed primitive table declared once per compilation by
`declare_externals` (lachain.rs lines 136-563), in declaration order. Only
`system_halt` is marked noreturn. -/
def declare_externals : List HostPrimitive :=
  [ ⟨"save_storage", [.ptr, .ptr], .void, false⟩,
    ⟨"load_storage", [.ptr, .ptr], .void, false⟩,
    ⟨"save_storage_string", [.ptr, .ptr, .i32], .void, false⟩,
    ⟨"load_storage_string", [.ptr, .ptr], .void, false⟩,
    ⟨"get_storage_string_size", [.ptr], .i32, false⟩,
    ⟨"get_call_size", [], .i32, false⟩,
    ⟨"get_return_size", [], .i32, false⟩,
    ⟨"copy_call_value", [.i32, .i32, .ptr], .void, false⟩,
    ⟨"copy_return_value", [.ptr, .i32, .i32], .void, false⟩,
    ⟨"invoke_contract", [.ptr, .i32, .ptr, .ptr, .ptr], .i32, false⟩,
    ⟨"invoke_static_contract", [.ptr, .i32, .ptr, .ptr, .ptr], .i32, false⟩,
    ⟨"invoke_delegate_contract", [.ptr, .i32, .ptr, .ptr, .ptr], .i32, false⟩,
    ⟨"transfer", [.ptr, .ptr], .i32, false⟩,
    ⟨"get_msgvalue", [.ptr], .void, false⟩,
    ⟨"get_address", [.ptr], .void, false⟩,
    ⟨"get_sender", [.ptr], .void, false⟩,
    ⟨"get_external_balance", [.ptr, .ptr], .void, false⟩,
    ⟨"get_gas_left", [.ptr], .void, false⟩,
    ⟨"get_tx_gas_price", [.ptr], .void, false⟩,
    ⟨"get_tx_origin", [.ptr], .void, false⟩,
    ⟨"get_block_number", [.ptr], .void, false⟩,
    ⟨"get_block_hash", [.ptr, .ptr], .void, false⟩,
    ⟨"get_block_gas_limit", [.ptr], .void, false⟩,
    ⟨"get_block_difficulty", [.ptr], .void, false⟩,
    ⟨"get_block_coinbase_address", [.ptr], .void, false⟩,
    ⟨"get_block_timestamp", [.ptr], .void, false⟩,
    ⟨"get_chain_id", [.ptr], .void, false⟩,
    ⟨"create", [.ptr, .ptr, .i32, .ptr], .i32, false⟩,
    ⟨"create2", [.ptr, .ptr, .i32, .ptr, .ptr], .i32, false⟩,
    ⟨"write_log", [.ptr, .i32], .void, false⟩,
    ⟨"set_return", [.ptr, .i32], .void, false⟩,
    ⟨"crypto_keccak256", [.ptr, .i32, .ptr], .void, false⟩,
    ⟨"crypto_ripemd160", [.ptr, .i32, .ptr], .void, false⟩,
    ⟨"crypto_sha256", [.ptr, .i32, .ptr], .void, false⟩,
    ⟨"crypto_recover", [.ptr, .i8, .ptr, .ptr, .ptr], .void, false⟩,
    ⟨"system_halt", [.i32], .void, true⟩ ]

/-- Look a primitive up by name in the declaration table. -/
def find_external (n : String) : Option HostPrimitive :=
  declare_externals.find? (fun p => p.name == n)

/-! ## Emitted operations

The backend's lowering sites emit straight-line LLVM IR; we record the
operations that matter to the claims: scratch allocations, stores into
scratch buffers, calls to declared host primitives, calls to internal
runtime helpers (`__bzero8`, `__be32toleN`, `__beNtoleN`, ...), loads, and
the `unreachable` terminator. -/

/-- An argument of an emitted call: an integer constant, the null pointer,
a pointer to a named scratch allocation, or a runtime value received by the
emitting function (named after the Rust-side variable). -/
inductive Arg where
  | imm : Nat → Arg
  | nullPtr : Arg
  | ptrTo : String → Arg
  | var : String → Arg
  deriving DecidableEq

/-- An emitted operation. `alloca` records the buffer name and its size in
bytes; calls record the callee name and arguments. -/
inductive Op where
  | alloca : String → Nat → Op
  | store : String → Arg → Op
  | callPrim : String → List Arg → Op
  | callHelper : String → List Arg → Op
  | load : String → Op
  | unreachable : Op
  deriving DecidableEq

/-- Is this operation a byte-order reversal (one of the two runtime
endianness-conversion helpers)? -/
def is_reversal : Op → Bool
  | .callHelper "__be32toleN" _ => true
  | .callHelper "__beNtoleN" _ => true
  | _ => false

/-- Does the sequence contain a byte-order reversal? -/
def has_reversal (ops : List Op) : Bool := ops.any is_reversal

/-- The name of the host primitive called by an operation, if any. -/
def prim_name : Op → Option String
  | .callPrim n _ => some n
  | _ => none

/-- The `idx`-th argument of the first call to host primitive `prim` in the
sequence. -/
def prim_arg (ops : List Op) (prim : String) (idx : Nat) : Option Arg :=
  ops.findSome? fun op =>
    match op with
    | .callPrim p args => if p == prim then args.get? idx else none
    | _ => none

/-- Does the sequence store the incoming value argument into the named
scratch buffer? -/
def stores_value_to (ops : List Op) (buf : String) : Bool :=
  ops.any fun op => op == .store buf (.var "value")

/-- The sequence stages its value operand the way the specification
describes: the incoming value is stored into a big-endian scratch word,
`__be32toleN` converts it into a little-endian scratch word, and the host
call's value argument (`idx`-th argument of `prim`) is the converted
little-endian pointer. -/
def value_converted (ops : List Op) (prim : String) (idx : Nat) : Bool :=
  ops.any fun op =>
    match op with
    | .callHelper "__be32toleN" [.ptrTo be, .ptrTo le, _] =>
        stores_value_to ops be && (prim_arg ops prim idx == some (.ptrTo le))
    | _ => false

/-- The status constant passed to the first `system_halt` call of the
sequence. -/
def halt_status (ops : List Op) : Option Nat :=
  ops.findSome? fun op =>
    match op with
    | .callPrim "system_halt" [.imm s] => some s
    | _ => none

/-- The sequence terminates by calling `system_halt` and then emitting the
structural `unreachable` marker: its last two operations are a
`system_halt` call followed by `unreachable`. -/
def ends_in_halt (ops : List Op) : Bool :=
  match ops.reverse with
  | .unreachable :: .callPrim "system_halt" _ :: _ => true
  | _ => false

/-! ## Termination primitives (lachain.rs lines 1086-1159) -/

/-- `return_abi` (lines 1112-1128): normal return with data. Stage the data
through `set_return`, halt with status 0, then the structural
`unreachable`. -/
def return_abi_ops : List Op :=
  [ .callPrim "set_return" [.var "data", .var "length"],
    .callPrim "system_halt" [.imm 0],
    .unreachable ]

/-- `return_empty_abi` (lines 1086-1110): normal return with no data.
`set_return` receives the null pointer and length zero; halt status 0. -/
def return_empty_abi_ops : List Op :=
  [ .callPrim "set_return" [.nullPtr, .imm 0],
    .callPrim "system_halt" [.imm 0],
    .unreachable ]

/-- `assert_failure` (lines 1143-1159): revert. Stage the (possibly empty)
revert data through `set_return`, halt with status 1. -/
def assert_failure_ops (data len : Arg) : List Op :=
  [ .callPrim "set_return" [data, len],
    .callPrim "system_halt" [.imm 1],
    .unreachable ]

/-- `return_code` (lines 1131-1141): the start function cannot return a
value, so it funnels into `assert_failure` with null data and zero
length. -/
def return_code_ops : List Op := assert_failure_ops .nullPtr (.imm 0)

/-- Modelled from the spec: the unmatched-dispatch revert. The dispatch
loop itself (`emit_function_dispatch`) lives outside this repository slice
(emit/mod.rs); per the specification an invocation whose selector matches
no table entry reverts with empty data through the assertion-failure
path. -/
def unmatched_dispatch_ops : List Op := assert_failure_ops .nullPtr (.imm 0)

/-- Modelled from the spec: the unpayable-value abort. The helper
`abort_if_value_transfer` invoked by `runtime_prelude` lives outside this
repository slice (emit/mod.rs); per the specification a nonzero value sent
to a non-payable function reverts with empty data, before argument
decoding, through the assertion-failure path. -/
def abort_value_transfer_ops : List Op := assert_failure_ops .nullPtr (.imm 0)

/-! ## Call / creation marshaller: runtime branching semantics

`external_call` (lines 1402-1537), `value_transfer` (lines 1540-1646) and
`create_contract` (lines 1218-1400) share the success/failure epilogue:
compare a status against the i32 constant zero; if the call site requested
a success-flag output, write the flag and fall through; otherwise branch to
a bail block that reverts with empty data through `assert_failure`. We
model that epilogue as a function from the host's returned status code and
the success-flag request to an outcome. -/

/-- The three external-call kinds (`ast::CallTy`). -/
inductive CallTy where
  | regular : CallTy
  | static : CallTy
  | delegate : CallTy
  deriving DecidableEq

/-- The host primitive each call kind invokes (lines 1466-1470). -/
def invoke_prim : CallTy → String
  | .regular => "invoke_contract"
  | .static => "invoke_static_contract"
  | .delegate => "invoke_delegate_contract"

/-- What the generated code does after the host primitive returns: either
execution continues (carrying the success flag written at the call site,
when one was requested), or the code reverts unconditionally; the revert's
payload length is recorded (the bail blocks pass null data and length
zero). -/
inductive CallOutcome where
  | cont : Option Bool → CallOutcome
  | revert : Nat → CallOutcome
  deriving DecidableEq

/-- `external_call` epilogue (lines 1507-1537): `ret` is the status the
invoke primitive returned; `is_success` compares it with zero. The call
kind selects the primitive but does not influence the branching. -/
def external_call (_callty : CallTy) (hostStatus : Nat)
    (successRequested : Bool) : CallOutcome :=
  let ret := hostStatus
  let is_success := decide (ret = 0)
  if successRequested then
    .cont (some is_success)
  else if is_success then
    .cont none
  else
    .revert 0

/-- `value_transfer` epilogue (lines 1616-1646): identical branching on the
status returned by the `transfer` primitive. -/
def value_transfer (hostStatus : Nat) (successRequested : Bool) : CallOutcome :=
  let ret := hostStatus
  let is_success := decide (ret = 0)
  if successRequested then
    .cont (some is_success)
  else if is_success then
    .cont none
  else
    .revert 0

/-- `create_contract` epilogue (lines 1289-1399). In the Rust source the
outer `ret` (line 1289) is the i32 constant zero; the status returned by
the `create`/`create2` call is bound to an inner `let ret` whose scope ends
at the end of its `if let` arm, so the comparison at line 1370 reads the
constant, not the host status. The host status is therefore received and
dropped. -/
def create_contract (hostStatus : Nat) (successRequested : Bool) : CallOutcome :=
  let ret := 0
  let _dropped_inner_ret := hostStatus
  let is_success := decide (ret = 0)
  if successRequested then
    .cont (some is_success)
  else if is_success then
    .cont none
  else
    .revert 0

/-! ## Call / creation marshaller: emitted value staging

The operation sequences emitted from the value staging onward (the
ABI-encoding prelude of `create_contract`, which delegates to the shared
encoder, is out of scope). Scratch buffers carry the source-side Rust
variable names. -/

/-- `external_call` staging and host call (lines 1417-1505): store the
value into the big-endian scratch, convert with `__be32toleN` into the
little-endian scratch, stage gas into a 64-bit scratch, then invoke the
kind-selected primitive with (address, payload_len, payload, converted
value pointer, gas pointer). -/
def external_call_ops (callty : CallTy) : List Op :=
  [ .alloca "value_be_ptr" 32,
    .store "value_be_ptr" (.var "value"),
    .alloca "value_le_ptr" 32,
    .callHelper "__be32toleN" [.ptrTo "value_be_ptr", .ptrTo "value_le_ptr", .imm 32],
    .alloca "gas_ptr" 8,
    .store "gas_ptr" (.var "gas"),
    .callPrim (invoke_prim callty)
      [.var "address", .var "payload_len", .var "payload",
       .ptrTo "value_le_ptr", .ptrTo "gas_ptr"] ]

/-- `value_transfer` staging and host call (lines 1549-1614): the same
value conversion, then `transfer` with (address, converted value
pointer). -/
def value_transfer_ops : List Op :=
  [ .alloca "value_be_ptr" 32,
    .store "value_be_ptr" (.var "value"),
    .alloca "value_le_ptr" 32,
    .callHelper "__be32toleN" [.ptrTo "value_be_ptr", .ptrTo "value_le_ptr", .imm 32],
    .callPrim "transfer" [.var "address", .ptrTo "value_le_ptr"] ]

/-- `create_contract` staging and host call (lines 1277-1368): store the
value (or zero) into the `value_ptr` scratch; when a salt is supplied,
stage it and call `create2`, else call `create`. The value pointer is
passed to the host as it was stored — no endianness-conversion helper is
invoked anywhere in this function. -/
def create_contract_ops (salted : Bool) : List Op :=
  if salted then
    [ .alloca "value_ptr" 32,
      .store "value_ptr" (.var "value"),
      .alloca "salt_ptr" 32,
      .store "salt_ptr" (.var "salt"),
      .callPrim "create2"
        [.ptrTo "value_ptr", .var "input", .var "input_len",
         .ptrTo "salt_ptr", .var "address"] ]
  else
    [ .alloca "value_ptr" 32,
      .store "value_ptr" (.var "value"),
      .callPrim "create"
        [.ptrTo "value_ptr", .var "input", .var "input_len", .var "address"] ]

/-! ## Storage accessor (lachain.rs lines 665-1051)

Memory is byte-addressed and little-endian (the target is WebAssembly), so
a `w`-bit native integer stored at offset 0 of a buffer occupies the first
`w / 8` bytes in little-endian order. A 32-byte storage word is a list of
32 byte values. -/

/-- The `count` little-endian bytes of `v` (the layout of a native
`8 * count`-bit integer stored to memory). -/
def natToBytesLE : Nat → Nat → List Nat
  | 0, _ => []
  | count + 1, v => v % 256 :: natToBytesLE count (v / 256)

/-- Read a little-endian byte list back as a number (the value a native
integer load of the whole list yields). -/
def bytesToNatLE : List Nat → Nat
  | [] => 0
  | b :: bs => b + 256 * bytesToNatLE bs

/-- Modelled from the spec: the host's fixed-slot storage behind
`save_storage` / `load_storage` (external primitives, declared but not
defined in this repository) is a map from 256-bit keys to 32-byte
words. -/
def Storage : Type := Nat → List Nat

/-- Modelled from the spec: `save_storage(keyOffset, valueOffset)` stores
the 32-byte word at the key. -/
def save_storage (st : Storage) (slot : Nat) (word : List Nat) : Storage :=
  fun s => if s = slot then word else st s

/-- Modelled from the spec: `load_storage(keyOffset, resultOffset)` copies
the stored 32-byte word out. -/
def load_storage (st : Storage) (slot : Nat) : List Nat := st slot

/-- The 32-byte word `set_storage` (lines 923-1004) writes for a `w`-bit
value `v`: when the native width is already 256 bits the native word is
written directly; otherwise a 256-bit scratch word is zeroed with
`__bzero8` (4 chunks of 8 bytes) and the narrower value is overlaid at its
natural position — offset 0, the low-order bytes of the little-endian
word. -/
def stored_word (w v : Nat) : List Nat :=
  if w = 256 then
    natToBytesLE 32 v
  else
    natToBytesLE (w / 8) v ++ List.replicate (32 - w / 8) 0

/-- `set_storage` (lines 923-1004): write the fixed word for `v` at the
slot through `save_storage`. -/
def set_storage (st : Storage) (slot w v : Nat) : Storage :=
  save_storage st slot (stored_word w v)

/-- `get_storage_int` (lines 1006-1051): allocate a 32-byte scratch, call
`load_storage`, then load the scratch reinterpreted at the target width —
the first `w / 8` bytes read back little-endian. -/
def get_storage_int (st : Storage) (slot w : Nat) : Nat :=
  bytesToNatLE ((load_storage st slot).take (w / 8))

/-- `storage_delete_single_slot` (lines 665-705): write an all-zero
32-byte word to the slot through the ordinary `save_storage` primitive. -/
def storage_delete_single_slot (st : Storage) (slot : Nat) : Storage :=
  save_storage st slot (List.replicate 32 0)

/-- The operations `storage_delete_single_slot` emits: zero the 256-bit
scratch with `__bzero8` (4 chunks of 8 bytes) and pass it, with the slot
key, to `save_storage`. No other host primitive is called. -/
def storage_delete_ops : List Op :=
  [ .alloca "value" 32,
    .callHelper "__bzero8" [.ptrTo "value", .imm 4],
    .callPrim "save_storage" [.var "slot", .ptrTo "value"] ]

/-! ### Variable-length ("string") storage (lines 707-862) -/

/-- Modelled from the spec: the host's variable-length storage behind
`save_storage_string` / `load_storage_string` / `get_storage_string_size`
(external primitives, declared but not defined in this repository) is a
map from 256-bit keys to byte sequences. -/
def StringStorage : Type := Nat → List Nat

/-- Modelled from the spec: `save_storage_string(key, valueOffset,
valueLength)` stores the byte sequence at the key. -/
def save_storage_string (st : StringStorage) (slot : Nat) (data : List Nat) :
    StringStorage :=
  fun s => if s = slot then data else st s

/-- Modelled from the spec: `get_storage_string_size(key)` returns the
stored sequence's length. -/
def get_storage_string_size (st : StringStorage) (slot : Nat) : Nat :=
  (st slot).length

/-- Modelled from the spec: `load_storage_string(key, resultOffset)` copies
the stored bytes into the result region. -/
def load_storage_string (st : StringStorage) (slot : Nat) : List Nat := st slot

/-- Size in bytes of the `struct.vector` buffer header (two i32 fields:
length and capacity) that precedes the data region of every
length-prefixed heap buffer. -/
def vector_header_size : Nat := 8

/-- The heap buffer `get_storage_string` builds: total allocation size,
the two header fields, and the data region. -/
structure StorageVector where
  alloc_size : Nat
  len : Nat
  size : Nat
  data : List Nat
  deriving DecidableEq

/-- `set_storage_string` (lines 707-740): pass the key, the buffer's data
pointer and its length to `save_storage_string`. -/
def set_storage_string (st : StringStorage) (slot : Nat) (dest : List Nat) :
    StringStorage :=
  save_storage_string st slot dest

/-- `get_storage_string` (lines 742-862): query the stored length via
`get_storage_string_size`, allocate header-size + length bytes, store the
length into both header fields, then `load_storage_string` into the data
region. -/
def get_storage_string (st : StringStorage) (slot : Nat) : StorageVector :=
  let length := get_storage_string_size st slot
  { alloc_size := vector_header_size + length,
    len := length,
    size := length,
    data := load_storage_string st slot }

/-! ## Unimplemented storage shapes (lines 864-921) -/

/-- The result of asking the backend to lower an operation: either emitted
code, or a compile-time abort — the Rust source panics via
`unimplemented!()`, so compilation stops and no code is generated. -/
inductive Emitted (α : Type) where
  | code : α → Emitted α
  | abortUnimplemented : Emitted α
  deriving DecidableEq

/-- `set_storage_extfunc` (lines 864-872): external-function-pointer
storage write aborts compilation. -/
def set_storage_extfunc (_slot _dest : Nat) : Emitted (List Op) :=
  .abortUnimplemented

/-- `get_storage_extfunc` (lines 873-881): external-function-pointer
storage read aborts compilation. -/
def get_storage_extfunc (_slot : Nat) : Emitted (List Op) :=
  .abortUnimplemented

/-- `get_storage_bytes_subscript` (lines 882-890): byte-subscript element
read aborts compilation. -/
def get_storage_bytes_subscript (_slot _index : Nat) : Emitted (List Op) :=
  .abortUnimplemented

/-- `set_storage_bytes_subscript` (lines 891-900): byte-subscript element
write aborts compilation. -/
def set_storage_bytes_subscript (_slot _index _val : Nat) : Emitted (List Op) :=
  .abortUnimplemented

/-- `storage_push` (lines 901-911): dynamic push on a storage array aborts
compilation. -/
def storage_push (_slot _val : Nat) : Emitted (List Op) :=
  .abortUnimplemented

/-- `storage_pop` (lines 912-921): dynamic pop on a storage array aborts
compilation. -/
def storage_pop (_slot : Nat) : Emitted (List Op) :=
  .abortUnimplemented

/-! ## Hashing and signature recovery (lines 1800-1857 and 2042-2128) -/

/-- The three hash algorithms the `hash` lowering handles
(`codegen::cfg::HashTy` arms reachable on this target). -/
inductive HashTy where
  | keccak256 : HashTy
  | ripemd160 : HashTy
  | sha256 : HashTy
  deriving DecidableEq

/-- The host primitive and digest width (bytes) for each algorithm
(lines 1810-1815). -/
def hash_prim : HashTy → String × Nat
  | .keccak256 => ("crypto_keccak256", 32)
  | .ripemd160 => ("crypto_ripemd160", 20)
  | .sha256 => ("crypto_sha256", 32)

/-- `hash` (lines 1800-1857): allocate a digest-width result scratch,
invoke the matching primitive, reverse the digest's byte order with
`__beNtoleN` into a second scratch, and load that as the result. -/
def hash_ops (h : HashTy) : List Op :=
  [ .alloca "res" (hash_prim h).2,
    .callPrim (hash_prim h).1 [.var "input", .var "input_len", .ptrTo "res"],
    .alloca "temp" (hash_prim h).2,
    .callHelper "__beNtoleN" [.ptrTo "res", .ptrTo "temp", .imm (hash_prim h).2],
    .load "temp" ]

/-- The `Ecrecover` builtin lowering (lines 2042-2128): stage the hash, r
and s arguments verbatim into 32-byte scratches, pass v by value, allocate
an address-length result scratch, call `crypto_recover`, and load the
result. `addr_len` is the target's address length in bytes. -/
def ecrecover_ops (addr_len : Nat) : List Op :=
  [ .alloca "hash" 32,
    .store "hash" (.var "hash_arg"),
    .alloca "r" 32,
    .store "r" (.var "r_arg"),
    .alloca "s" 32,
    .store "s" (.var "s_arg"),
    .alloca "result" addr_len,
    .callPrim "crypto_recover"
      [.ptrTo "hash", .var "v_arg", .ptrTo "r", .ptrTo "s", .ptrTo "result"],
    .load "result" ]

/-- Is the operation a reversal occurring before the first `load` of the
sequence? Used to state that the digest is reversed before it is loaded as
the lowering's result. -/
def reversal_before_load (ops : List Op) : Bool :=
  ops.findIdx is_reversal < ops.findIdx (fun op =>
    match op with
    | .load _ => true
    | _ => false)

/-! ## Event emission (lines 1859-1877) -/

/-- `send_event`: the generated code calls `write_log` with the data
pointer and data length only; the event number and the topic buffers
received at the emission site are not used. -/
def send_event (_event_no : Nat) (data data_len : Arg)
    (_topics : List (Arg × Arg)) : List Op :=
  [ .callPrim "write_log" [data, data_len] ]

/-! ## Supporting lemmas about little-endian byte lists -/

/-- A `count`-byte little-endian encoding is `count` bytes long. -/
lemma natToBytesLE_length (count v : Nat) : (natToBytesLE count v).length = count := by
  induction count generalizing v with
  | zero => rfl
  | succ count ih => simp [natToBytesLE, ih]

/-- Reading back a `count`-byte little-endian encoding of `v < 256 ^ count`
recovers `v`. -/
lemma bytesToNatLE_natToBytesLE (count v : Nat) (h : v < 256 ^ count) :
    bytesToNatLE (natToBytesLE count v) = v := by
  induction count generalizing v with
  | zero =>
      simp only [natToBytesLE, bytesToNatLE]
      omega
  | succ count ih =>
      have hdiv : v / 256 < 256 ^ count := by
        rw [Nat.div_lt_iff_lt_mul (by norm_num : 0 < 256)]
        calc v < 256 ^ (count + 1) := h
          _ = 256 ^ count * 256 := by rw [pow_succ]
      simp only [natToBytesLE, bytesToNatLE, ih (v / 256) hdiv]
      exact Nat.mod_add_div v 256

/-- An all-zero byte list reads back as zero. -/
lemma bytesToNatLE_replicate_zero (n : Nat) :
    bytesToNatLE (List.replicate n 0) = 0 := by
  induction n with
  | zero => rfl
  | succ n ih => simp [List.replicate, bytesToNatLE, ih]

/-- Bit widths that are whole bytes: `2 ^ w = 256 ^ (w / 8)`. -/
lemma two_pow_eq_256_pow {w : Nat} (h8 : w % 8 = 0) :
    2 ^ w = 256 ^ (w / 8) := by
  have h : 8 * (w / 8) = w := Nat.mul_div_cancel' (Nat.dvd_of_mod_eq_zero h8)
  calc 2 ^ w = 2 ^ (8 * (w / 8)) := by rw [h]
    _ = (2 ^ 8) ^ (w / 8) := by rw [pow_mul]
    _ = 256 ^ (w / 8) := by norm_num

/-- For whole-byte widths at most 256 bits, both branches of the write
path produce the overlay-on-zeros layout (the 256-bit branch leaves no
padding to add). -/
lemma stored_word_eq {w : Nat} (v : Nat) (h8 : w % 8 = 0) (hw : w ≤ 256) :
    stored_word w v = natToBytesLE (w / 8) v ++ List.replicate (32 - w / 8) 0 := by
  by_cases h : w = 256
  · subst h
    simp [stored_word]
  · simp [stored_word, h]

/-- Loading the slot just written yields the stored word. -/
lemma load_set_storage (st : Storage) (slot w v : Nat) :
    load_storage (set_storage st slot w v) slot = stored_word w v := by
  simp [load_storage, set_storage, save_storage]

/-- Taking exactly the length of the left list of an append returns it. -/
lemma take_length_append {α : Type} (l₁ l₂ : List α) {n : Nat}
    (h : l₁.length = n) : (l₁ ++ l₂).take n = l₁ := by
  subst h
  exact List.take_left l₁ l₂

/-- Dropping exactly the length of the left list of an append returns the
right list. -/
lemma drop_length_append {α : Type} (l₁ l₂ : List α) {n : Nat}
    (h : l₁.length = n) : (l₁ ++ l₂).drop n = l₂ := by
  subst h
  exact List.drop_left l₁ l₂

/-! ## Claim theorems -/

/-- Claim C1 — counterexample. The claim states the halt primitive
"accepts (statusCode, dataPointer, dataLength)"; the declaration at
lachain.rs lines 550-562 gives `system_halt` exactly one parameter, the
i32 status code. -/
theorem c1_halt_signature_counterexample :
    (Lachain.find_external "system_halt").map Lachain.HostPrimitive.params ≠
      some [Lachain.PrimTy.i32, Lachain.PrimTy.ptr, Lachain.PrimTy.i32] ∧
    (Lachain.find_external "system_halt").map Lachain.HostPrimitive.params =
      some [Lachain.PrimTy.i32] := by
  decide

/-- Claim C1 — amended. Every termination path ends by calling the single
halt primitive `system_halt`, which is declared once, is the only
primitive marked non-returning, and accepts only the status code; the data
pointer and length travel through the separate `set_return` primitive
invoked immediately before halting. Normal return (with data via
`return_abi`, without data via `return_empty_abi`, which passes the null
pointer and zero length) halts with status 0; assertion failure,
the start function's return path, unmatched dispatch and the
unpayable-value abort halt with status 1. -/
theorem c1_halt_funnel (data len : Arg) :
    find_external "system_halt" = some ⟨"system_halt", [.i32], .void, true⟩ ∧
    (declare_externals.filter (fun p => p.noreturn)).map HostPrimitive.name =
      ["system_halt"] ∧
    (declare_externals.filter (fun p => p.name == "system_halt")).length = 1 ∧
    ends_in_halt return_abi_ops = true ∧
    halt_status return_abi_ops = some 0 ∧
    ends_in_halt return_empty_abi_ops = true ∧
    halt_status return_empty_abi_ops = some 0 ∧
    prim_arg return_empty_abi_ops "set_return" 0 = some .nullPtr ∧
    prim_arg return_empty_abi_ops "set_return" 1 = some (.imm 0) ∧
    ends_in_halt (assert_failure_ops data len) = true ∧
    halt_status (assert_failure_ops data len) = some 1 ∧
    prim_arg (assert_failure_ops data len) "set_return" 0 = some data ∧
    ends_in_halt return_code_ops = true ∧
    halt_status return_code_ops = some 1 ∧
    ends_in_halt unmatched_dispatch_ops = true ∧
    halt_status unmatched_dispatch_ops = some 1 ∧
    ends_in_halt abort_value_transfer_ops = true ∧
    halt_status abort_value_transfer_ops = some 1 := by
  refine ⟨by decide, by decide, by decide, by decide, by decide, by decide,
    by decide, by decide, by decide, rfl, rfl, rfl, by decide, by decide,
    by decide, by decide, by decide, by decide⟩

/-- Claim C1 — witness for the amended theorem at concrete revert data. -/
theorem c1_halt_funnel_witness :
    halt_status (assert_failure_ops .nullPtr (.imm 0)) = some 1 :=
  (c1_halt_funnel .nullPtr (.imm 0)).2.2.2.2.2.2.2.2.2.2.1

/-- Claim C2 — confirmed. For every external call kind and for value
transfers: host status 0 with a requested success flag sets the flag true
and continues; a nonzero status with no flag requested reverts
unconditionally with empty data; a nonzero status with a flag requested
sets the flag false and continues. -/
theorem c2_call_status_branching (cty : CallTy) (status : Nat) :
    external_call cty 0 true = .cont (some true) ∧
    value_transfer 0 true = .cont (some true) ∧
    (status ≠ 0 → external_call cty status false = .revert 0) ∧
    (status ≠ 0 → value_transfer status false = .revert 0) ∧
    (status ≠ 0 → external_call cty status true = .cont (some false)) ∧
    (status ≠ 0 → value_transfer status true = .cont (some false)) := by
  refine ⟨rfl, rfl, ?_, ?_, ?_, ?_⟩ <;>
    intro h <;>
    simp [external_call, value_transfer, h]

/-- Claim C2 — witness: a regular call with host status 1 and no success
flag requested reverts with empty data. -/
theorem c2_call_status_branching_witness :
    external_call .regular 1 false = .revert 0 :=
  (c2_call_status_branching .regular 1).2.2.1 (by decide)

/-- Claim C3 — counterexample. The claim states every effectful marshaller
operation converts its value to little-endian before the host call;
`create_contract` (lachain.rs lines 1277-1368) passes the value scratch to
`create`/`create2` without any byte-order conversion. -/
theorem c3_create_value_unconverted_counterexample :
    value_converted (create_contract_ops false) "create" 0 = false ∧
    value_converted (create_contract_ops true) "create2" 0 = false ∧
    has_reversal (create_contract_ops false) = false := by
  decide

/-- Claim C3 — amended. External calls of all three kinds and value
transfers store the 256-bit value into a big-endian scratch word, convert
it into a little-endian scratch word via `__be32toleN`, and pass the
converted pointer to the host; contract creation (`create` and `create2`)
stores the value into a scratch word and passes that same pointer to the
host directly, with no byte-order conversion anywhere in its emission. -/
theorem c3_value_staging (cty : CallTy) :
    value_converted (external_call_ops cty) (invoke_prim cty) 3 = true ∧
    value_converted value_transfer_ops "transfer" 1 = true ∧
    has_reversal (create_contract_ops false) = false ∧
    has_reversal (create_contract_ops true) = false ∧
    prim_arg (create_contract_ops false) "create" 0 = some (.ptrTo "value_ptr") ∧
    prim_arg (create_contract_ops true) "create2" 0 = some (.ptrTo "value_ptr") ∧
    stores_value_to (create_contract_ops false) "value_ptr" = true ∧
    stores_value_to (create_contract_ops true) "value_ptr" = true := by
  cases cty <;> decide

/-- Claim C3 — witness for the amended theorem at the regular call kind. -/
theorem c3_value_staging_witness :
    value_converted (external_call_ops .regular) (invoke_prim .regular) 3 = true :=
  (c3_value_staging .regular).1

/-- Claim C4 — the code at the failing input. `create_contract` binds the
status returned by `create`/`create2` to an inner `ret` that goes out of
scope unused; the success comparison reads the outer `ret`, the i32
constant zero. So a failed creation (host status 1) with no success flag
requested continues instead of reverting, and with a flag requested the
flag is true regardless of the host status: the branching never reverts
for any status. -/
theorem c4_create_status_ignored (status : Nat) (req : Bool) :
    create_contract 1 false = .cont none ∧
    create_contract 1 true = .cont (some true) ∧
    create_contract status req =
      (if req then CallOutcome.cont (some true) else CallOutcome.cont none) := by
  refine ⟨rfl, rfl, ?_⟩
  cases req <;> rfl

/-- Claim C5 — confirmed. For every whole-byte width `w ≤ 256` and value
`v < 2 ^ w`: a fixed write of `v` followed by a fixed read of width `w`
from the same slot yields `v`; every byte of the stored 32-byte word past
the value's `w / 8` bytes is zero; and the write path writes the native
word directly when `w = 256` and otherwise overlays the narrower value on
a zeroed 256-bit scratch word. -/
theorem c5_fixed_storage_roundtrip (st : Storage) (slot w v : Nat)
    (h8 : w % 8 = 0) (hw : w ≤ 256) (hv : v < 2 ^ w) :
    get_storage_int (set_storage st slot w v) slot w = v ∧
    (∀ x ∈ (load_storage (set_storage st slot w v) slot).drop (w / 8), x = 0) ∧
    stored_word 256 v = natToBytesLE 32 v ∧
    (w ≠ 256 → stored_word w v =
      natToBytesLE (w / 8) v ++ List.replicate (32 - w / 8) 0) := by
  have hlen : (natToBytesLE (w / 8) v).length = w / 8 := natToBytesLE_length _ _
  have hword := stored_word_eq v h8 hw
  refine ⟨?_, ?_, by simp [stored_word], fun h => by simp [stored_word, h]⟩
  · rw [get_storage_int, load_set_storage, hword, take_length_append _ _ hlen]
    exact bytesToNatLE_natToBytesLE _ v (by rw [← two_pow_eq_256_pow h8]; exact hv)
  · intro x hx
    rw [load_set_storage, hword, drop_length_append _ _ hlen] at hx
    exact List.eq_of_mem_replicate hx

/-- Claim C5 — witness: writing the 64-bit value 300 and reading 64 bits
back over the all-zero storage yields 300. -/
theorem c5_fixed_storage_roundtrip_witness :
    get_storage_int (set_storage (fun _ => List.replicate 32 0) 0 64 300) 0 64 = 300 :=
  (c5_fixed_storage_roundtrip (fun _ => List.replicate 32 0) 0 64 300
    (by decide) (by decide) (by decide)).1

/-- Claim C6 — confirmed. Slot deletion writes an all-zero 32-byte word
through the ordinary `save_storage` primitive — the only host primitive
its emission invokes — so a fixed read of any width from the deleted slot
yields zero. -/
theorem c6_delete_then_read_zero (st : Storage) (slot w : Nat) :
    storage_delete_ops.filterMap prim_name = ["save_storage"] ∧
    get_storage_int (storage_delete_single_slot st slot) slot w = 0 := by
  refine ⟨by decide, ?_⟩
  simp only [get_storage_int, storage_delete_single_slot, load_storage,
    save_storage]
  simp only [if_true, List.take_replicate, bytesToNatLE_replicate_zero]

/-- Claim C6 — witness: deleting slot 0 of the all-zero storage and
reading 256 bits back yields zero. -/
theorem c6_delete_then_read_zero_witness :
    get_storage_int
      (storage_delete_single_slot (fun _ => List.replicate 32 0) 0) 0 256 = 0 :=
  (c6_delete_then_read_zero (fun _ => List.replicate 32 0) 0 256).2

/-- Claim C7 — confirmed. Writing a byte sequence to a string storage slot
and reading it back yields a buffer whose stored length (both header
fields) equals the sequence's length, whose data equals the sequence, and
whose allocation is header-size plus that length. -/
theorem c7_string_storage_roundtrip (st : StringStorage) (slot : Nat)
    (b : List Nat) :
    (get_storage_string (set_storage_string st slot b) slot).len = b.length ∧
    (get_storage_string (set_storage_string st slot b) slot).size = b.length ∧
    (get_storage_string (set_storage_string st slot b) slot).data = b ∧
    (get_storage_string (set_storage_string st slot b) slot).alloc_size =
      vector_header_size + b.length := by
  simp [get_storage_string, set_storage_string, save_storage_string,
    get_storage_string_size, load_storage_string]

/-- Claim C7 — witness: a three-byte sequence round-trips through string
storage over the empty string storage. -/
theorem c7_string_storage_roundtrip_witness :
    (get_storage_string
      (set_storage_string (fun _ => []) 5 [1, 2, 3]) 5).data = [1, 2, 3] :=
  (c7_string_storage_roundtrip (fun _ => []) 5 [1, 2, 3]).2.2.1

/-- Claim C8 — counterexample. The claim states the byte-order reversal is
also applied to the hash input staged for `crypto_recover`; the
`Ecrecover` lowering (lachain.rs lines 2042-2128, here at address length
20) stores the hash argument into its scratch verbatim and invokes no
reversal helper at all. -/
theorem c8_ecrecover_no_reversal_counterexample :
    has_reversal (ecrecover_ops 20) = false ∧
    Op.store "hash" (Arg.var "hash_arg") ∈ ecrecover_ops 20 ∧
    prim_arg (ecrecover_ops 20) "crypto_recover" 0 = some (.ptrTo "hash") := by
  decide

/-- Claim C8 — amended. Every hashing lowering allocates a result-width
scratch buffer (32 bytes for keccak-256 and sha-256, 20 for ripemd-160),
invokes the matching host primitive, and applies a `__beNtoleN` byte-order
reversal to the digest before loading it as the result; the
signature-recovery lowering stages its hash argument into its scratch
buffer unmodified and performs no byte-order reversal of its own. -/
theorem c8_hash_lowering (h : HashTy) (addr_len : Nat) :
    (hash_ops h).head? = some (.alloca "res" (hash_prim h).2) ∧
    Op.callPrim (hash_prim h).1 [.var "input", .var "input_len", .ptrTo "res"]
      ∈ hash_ops h ∧
    Op.callHelper "__beNtoleN" [.ptrTo "res", .ptrTo "temp", .imm (hash_prim h).2]
      ∈ hash_ops h ∧
    reversal_before_load (hash_ops h) = true ∧
    (hash_prim .keccak256).2 = 32 ∧
    (hash_prim .ripemd160).2 = 20 ∧
    (hash_prim .sha256).2 = 32 ∧
    has_reversal (ecrecover_ops addr_len) = false ∧
    Op.store "hash" (Arg.var "hash_arg") ∈ ecrecover_ops addr_len ∧
    prim_arg (ecrecover_ops addr_len) "crypto_recover" 0 = some (.ptrTo "hash") := by
  cases h <;>
    exact ⟨rfl, by simp [hash_ops], by simp [hash_ops], rfl, rfl, rfl, rfl,
      rfl, by simp [ecrecover_ops], rfl⟩

/-- Claim C8 — witness for the amended theorem at keccak-256 and address
length 20. -/
theorem c8_hash_lowering_witness :
    reversal_before_load (hash_ops .keccak256) = true :=
  (c8_hash_lowering .keccak256 20).2.2.2.1

/-- Claim C9 — confirmed. Each extended-reference storage shape —
external-function-pointer write and read, byte-subscript read and write,
dynamic push and pop on storage arrays — aborts compilation
(`unimplemented!()` in the Rust source) and never produces emitted
code. -/
theorem c9_extended_storage_unsupported (slot index val : Nat) :
    set_storage_extfunc slot val = .abortUnimplemented ∧
    get_storage_extfunc slot = .abortUnimplemented ∧
    get_storage_bytes_subscript slot index = .abortUnimplemented ∧
    set_storage_bytes_subscript slot index val = .abortUnimplemented ∧
    storage_push slot val = .abortUnimplemented ∧
    storage_pop slot = .abortUnimplemented ∧
    (∀ ops : List Op, storage_push slot val ≠ .code ops) := by
  exact ⟨rfl, rfl, rfl, rfl, rfl, rfl, fun ops => by simp [storage_push]⟩

/-- Claim C9 — witness at a concrete slot, index, and value. -/
theorem c9_extended_storage_unsupported_witness :
    storage_push 0 7 = .abortUnimplemented :=
  (c9_extended_storage_unsupported 0 3 7).2.2.2.2.1

/-- Claim C10 — confirmed. Event emission calls `write_log` with exactly
the data pointer and data length; the emitted sequence does not depend on
the event number or the topic buffers. -/
theorem c10_event_topics_discarded (e e' : Nat) (data data_len : Arg)
    (t t' : List (Arg × Arg)) :
    send_event e data data_len t = [.callPrim "write_log" [data, data_len]] ∧
    send_event e data data_len t = send_event e' data data_len t' :=
  ⟨rfl, rfl⟩

/-- Claim C10 — witness: two emissions of the same data with different
event numbers and topic lists produce the same single `write_log` call. -/
theorem c10_event_topics_discarded_witness :
    send_event 0 (.var "data") (.var "data_len") [] =
      send_event 7 (.var "data") (.var "data_len")
        [(.ptrTo "topic", .imm 32)] :=
  (c10_event_topics_discarded 0 7 (.var "data") (.var "data_len") []
    [(.ptrTo "topic", .imm 32)]).2

end Lachain
